import Mathlib

/-!
Secret Santa OVERSUN, `static/js/main.js`.

A shallow embedding of the page script and of the parts of the browser it talks
to (string trimming, the result region, `fetch`, the HTML tokenizer, inline
style colours, timers, `querySelector`), followed by the properties proved
about it.

JavaScript strings are modelled as Lean strings (sequences of Unicode scalar
values); lone surrogates are outside the model.
-/

namespace SecretSanta

/-! ## JavaScript strings -/

/-- ECMAScript `WhiteSpace` and `LineTerminator` code points: what
`String.prototype.trim` strips and what `\s` matches in a regular expression. -/
def isJsSpace (c : Char) : Bool :=
  let n := c.toNat
  n == 0x09 || n == 0x0A || n == 0x0B || n == 0x0C || n == 0x0D || n == 0x20 ||
  n == 0xA0 || n == 0x1680 || (0x2000 ≤ n && n ≤ 0x200A) || n == 0x2028 ||
  n == 0x2029 || n == 0x202F || n == 0x205F || n == 0x3000 || n == 0xFEFF

/-- Drop the trailing characters that satisfy `p`. -/
def dropTrailing (p : Char → Bool) (cs : List Char) : List Char :=
  ((cs.reverse).dropWhile p).reverse

/-- Characters of `s.trim()`. -/
def trimChars (cs : List Char) : List Char :=
  dropTrailing isJsSpace (cs.dropWhile isJsSpace)

/-- JavaScript `s.trim()`. -/
def jsTrim (s : String) : String :=
  String.mk (trimChars s.data)

/-! ## Values produced by `JSON.parse` -/

/-- A JavaScript value as `response.json()` can produce it, plus `undefined`
(the value of a missing member). A Number is carried by its `ToString`
rendering, for example `"42"` or `"1.5"`; both zeros render as `"0"`. -/
inductive JsValue where
  | undefined
  | null
  | bool (b : Bool)
  | num (shown : String)
  | str (s : String)
  | arr (items : List JsValue)
  | obj (fields : List (String × JsValue))

/-- Errors a handler can throw. -/
inductive JsError where
  | typeError
  | syntaxError
  | networkError
  deriving DecidableEq, Repr

/-- JavaScript `ToBoolean`. -/
def truthy : JsValue → Bool
  | .undefined => false
  | .null => false
  | .bool b => b
  | .num shown => shown != "0"
  | .str s => s != ""
  | .arr _ => true
  | .obj _ => true

/-- Member access `v.key` for a key that is not a built-in member (the script
reads `exists` and `url` only): a `TypeError` on `null` and `undefined`, the
own field of an object, `undefined` everywhere else. -/
def getMember (v : JsValue) (key : String) : Except JsError JsValue :=
  match v with
  | .undefined => .error .typeError
  | .null => .error .typeError
  | .obj fields =>
    match fields.lookup key with
    | some x => .ok x
    | none => .ok .undefined
  | _ => .ok .undefined

mutual
/-- JavaScript `ToString`, as a template literal applies it. -/
def toStringJs : JsValue → String
  | .undefined => "undefined"
  | .null => "null"
  | .bool true => "true"
  | .bool false => "false"
  | .num shown => shown
  | .str s => s
  | .arr items => joinJs items
  | .obj _ => "[object Object]"
/-- The `Array.prototype.join` of the default separator `,`. -/
def joinJs : List JsValue → String
  | [] => ""
  | [x] => joinItem x
  | x :: y :: rest => joinItem x ++ "," ++ joinJs (y :: rest)
/-- An array element inside `join`: `null` and `undefined` give the empty string. -/
def joinItem : JsValue → String
  | .undefined => ""
  | .null => ""
  | .bool true => "true"
  | .bool false => "false"
  | .num shown => shown
  | .str s => s
  | .arr items => joinJs items
  | .obj _ => "[object Object]"
end

/-! ## `JSON.stringify` of the request object -/

/-- Hexadecimal digit (lower case) of a number below 16. -/
def hexDigit (n : Nat) : Char :=
  if n < 10 then Char.ofNat (48 + n) else Char.ofNat (87 + n)

/-- ECMAScript `QuoteJSONString`, one character. -/
def jsonQuoteChar (c : Char) : List Char :=
  if c = '\x08' then ['\\', 'b']
  else if c = '\t' then ['\\', 't']
  else if c = '\n' then ['\\', 'n']
  else if c = '\x0c' then ['\\', 'f']
  else if c = '\r' then ['\\', 'r']
  else if c = '"' then ['\\', '"']
  else if c = '\\' then ['\\', '\\']
  else if c.toNat < 0x20 then
    ['\\', 'u', '0', '0', hexDigit (c.toNat / 16), hexDigit (c.toNat % 16)]
  else [c]

/-- ECMAScript `QuoteJSONString`. -/
def jsonQuote (s : String) : String :=
  String.mk ('"' :: (s.data.flatMap jsonQuoteChar ++ ['"']))

/-- The members of an object whose values are strings, as `JSON.stringify` writes them. -/
def jsonMembers : List (String × String) → String
  | [] => ""
  | [(k, v)] => jsonQuote k ++ ":" ++ jsonQuote v
  | (k, v) :: m :: rest => jsonQuote k ++ ":" ++ jsonQuote v ++ "," ++ jsonMembers (m :: rest)

/-- The result of `JSON.stringify` on an object whose own properties are strings. -/
def jsonStringify (fields : List (String × String)) : String :=
  "\x7b" ++ jsonMembers fields ++ "\x7d"

/-! ## The page, the network and the check form -/

/-- What `fetch` is called with. -/
structure Request where
  url : String
  method : String
  headers : List (String × String)
  body : String
  deriving DecidableEq, Repr

/-- A response `fetch` resolves with: `fetch` resolves for every HTTP status. -/
structure Response where
  status : Nat
  body : String
  deriving DecidableEq, Repr

/-- The world outside the script: what `fetch` does with a request (`none` is a
rejected promise, a network failure) and what `response.json()` makes of a
body (`none` is a rejection, the body is not JSON). -/
structure Env where
  fetch : Request → Option Response
  parseJson : String → Option JsValue

/-- The elements the check form works on: the value of `#checkEmail` and the
`innerHTML` of `#checkResult`, each `none` when the document has no such element. -/
structure Page where
  checkEmail : Option String
  checkResult : Option String
  deriving DecidableEq, Repr

/-- An observable action of the submit handler. -/
inductive Effect where
  | preventDefault
  | setResult (html : String)
  | fetch (req : Request)
  deriving DecidableEq, Repr

/-- How a run of the submit handler ends: the page, the actions in order, and
the error it threw, if any. -/
structure Completion where
  page : Page
  log : List Effect
  thrown : Option JsError
  deriving DecidableEq, Repr

/-- Line 17: the message for an empty email. -/
def emptyEmailHtml : String := "<p class=\"error\">Пожалуйста, введите email</p>"

/-- Line 21: the transient message. -/
def checkingHtml : String := "<p>Проверка...</p>"

/-- Lines 35-37: the template literal up to `$\x7bdata.url\x7d`. -/
def foundHtmlBefore : String :=
  "\n                        <p class=\"success\">Участник найден!</p>\n                        <a href=\""

/-- Lines 37-40: the template literal after `$\x7bdata.url\x7d`. -/
def foundHtmlAfter : String :=
  "\" class=\"btn btn-primary\" style=\"margin-top: 10px; display: inline-block;\">\n                            Перейти в личный кабинет\n                        </a>\n                    "

/-- Lines 35-40: the template literal, `url` being `ToString(data.url)`. -/
def foundHtml (url : String) : String :=
  foundHtmlBefore ++ url ++ foundHtmlAfter

/-- Line 42: the message for an email that is not registered. -/
def notFoundHtml : String :=
  "<p class=\"error\">Участник с таким email не найден. Зарегистрируйтесь, пожалуйста.</p>"

/-- Line 45: the message of the `catch` block. -/
def retryHtml : String := "<p class=\"error\">Ошибка при проверке. Попробуйте позже.</p>"

/-- The statement `checkResult.innerHTML = html`: a `TypeError` when `checkResult` is `null`. -/
def assignResult (html : String) (pg : Page) : Except JsError Page :=
  match pg.checkResult with
  | none => .error .typeError
  | some _ => .ok { pg with checkResult := some html }

/-- Lines 24-30: the request of the check. -/
def checkRequest (email : String) : Request :=
  { url := "/participant/check"
    method := "POST"
    headers := [("Content-Type", "application/json")]
    body := jsonStringify [("email", email)] }

/-- Lines 24-43, the `try` block after the call of `fetch`: the HTML it assigns
to the result region, or the error that sends it to the `catch` block. -/
def tryBlock (env : Env) (req : Request) : Except JsError String :=
  match env.fetch req with
  | none => .error .networkError
  | some response =>
    match env.parseJson response.body with
    | none => .error .syntaxError
    | some data =>
      match getMember data "exists" with
      | .error err => .error err
      | .ok ex =>
        if truthy ex then
          match getMember data "url" with
          | .error err => .error err
          | .ok url => .ok (foundHtml (toStringJs url))
        else .ok notFoundHtml

/-- Lines 11-47: the submit handler of the check form, run to the end of its
promise. Each path through the `try` block and the `catch` block ends in one
assignment to `checkResult.innerHTML`: `tryBlock` gives the HTML of the path
taken, the `catch` block gives `retryHtml`, and the assignment follows. -/
def submitHandler (env : Env) (pg : Page) : Completion :=
  match pg.checkEmail with
  | none => { page := pg, log := [.preventDefault], thrown := some .typeError }
  | some value =>
    let email := jsTrim value
    if email = "" then
      match assignResult emptyEmailHtml pg with
      | .error err => { page := pg, log := [.preventDefault], thrown := some err }
      | .ok pg1 =>
        { page := pg1, log := [.preventDefault, .setResult emptyEmailHtml], thrown := none }
    else
      match assignResult checkingHtml pg with
      | .error err => { page := pg, log := [.preventDefault], thrown := some err }
      | .ok pg1 =>
        let req := checkRequest email
        let log1 := [.preventDefault, .setResult checkingHtml, .fetch req]
        let html :=
          match tryBlock env req with
          | .ok h => h
          | .error _ => retryHtml
        match assignResult html pg1 with
        | .error err => { page := pg1, log := log1, thrown := some err }
        | .ok pg2 => { page := pg2, log := log1 ++ [.setResult html], thrown := none }

/-! ## The HTML tokenizer behind `innerHTML`

The states of the HTML Standard's tokenizer (section 13.2.5) that markup made of
text, start tags with attributes and end tags goes through. Character
references (`&`), markup declarations (`<!`, `<?`), U+0000 and the elements
that switch the tokenizer to another content model are outside the model: the
tokenizer answers `none` on them. -/

/-- A token of the tokenizer. -/
inductive Token where
  | char (c : Char)
  | startTag (name : String) (attrs : List (String × String)) (selfClosing : Bool)
  | endTag (name : String)
  deriving DecidableEq, Repr

/-- The tag token under construction. -/
structure TagAcc where
  isEnd : Bool
  name : List Char
  attrs : List (List Char × List Char)
  deriving DecidableEq, Repr

/-- A state of the tokenizer, with the tag and the attribute under construction. -/
inductive TokState where
  | data
  | tagOpen
  | endTagOpen
  | tagName (t : TagAcc)
  | beforeAttrName (t : TagAcc)
  | attrName (t : TagAcc) (name : List Char)
  | afterAttrName (t : TagAcc) (name : List Char)
  | beforeAttrValue (t : TagAcc) (name : List Char)
  | attrValueDQ (t : TagAcc) (name val : List Char)
  | attrValueSQ (t : TagAcc) (name val : List Char)
  | attrValueUnq (t : TagAcc) (name val : List Char)
  | afterAttrValueQ (t : TagAcc)
  | selfClosing (t : TagAcc)
  deriving DecidableEq, Repr

/-- Input stream preprocessing: CR LF and a lone CR become LF. -/
def normalizeNewlines : List Char → List Char
  | [] => []
  | [c] => if c = '\r' then ['\n'] else [c]
  | c :: d :: rest =>
    if c = '\r' then
      if d = '\n' then '\n' :: normalizeNewlines rest
      else '\n' :: normalizeNewlines (d :: rest)
    else c :: normalizeNewlines (d :: rest)

/-- Tab, line feed, form feed and space. -/
def isHtmlSpace (c : Char) : Bool :=
  c = '\t' || c = '\n' || c = '\x0c' || c = ' '

/-- ASCII letters. -/
def isAsciiAlpha (c : Char) : Bool :=
  (65 ≤ c.toNat && c.toNat ≤ 90) || (97 ≤ c.toNat && c.toNat ≤ 122)

/-- ASCII upper case letters become lower case. -/
def asciiLower (c : Char) : Char :=
  if 65 ≤ c.toNat && c.toNat ≤ 90 then Char.ofNat (c.toNat + 32) else c

/-- Elements after whose start tag the tokenizer leaves the data state. -/
def switchesContentModel (name : List Char) : Bool :=
  [ "script", "style", "title", "textarea", "xmp", "iframe", "noembed", "noframes",
    "noscript", "plaintext" ].contains (String.mk name)

/-- Leaving the attribute: it joins the tag unless the tag already has an
attribute of that name. -/
def addAttr (t : TagAcc) (name val : List Char) : TagAcc :=
  if (t.attrs.map Prod.fst).contains name then t
  else { t with attrs := t.attrs ++ [(name, val)] }

/-- Emit the current tag token and return to the data state; the attributes of
an end tag are dropped. -/
def emitTag (t : TagAcc) (selfClosing : Bool) : Option (TokState × List Token) :=
  if t.isEnd then some (.data, [.endTag (String.mk t.name)])
  else if switchesContentModel t.name then none
  else
    some (.data, [.startTag (String.mk t.name)
      (t.attrs.map fun a => (String.mk a.1, String.mk a.2)) selfClosing])

/-- Attribute name state. -/
def stepAttrName (t : TagAcc) (name : List Char) (c : Char) : Option (TokState × List Token) :=
  if isHtmlSpace c then some (.afterAttrName t name, [])
  else if c = '/' then some (.selfClosing (addAttr t name []), [])
  else if c = '>' then emitTag (addAttr t name []) false
  else if c = '=' then some (.beforeAttrValue t name, [])
  else if c.toNat = 0 then none
  else some (.attrName t (name ++ [asciiLower c]), [])

/-- Before attribute name state. -/
def stepBeforeAttrName (t : TagAcc) (c : Char) : Option (TokState × List Token) :=
  if isHtmlSpace c then some (.beforeAttrName t, [])
  else if c = '/' then some (.selfClosing t, [])
  else if c = '>' then emitTag t false
  else if c = '=' then some (.attrName t ['='], [])
  else stepAttrName t [] c

/-- Tag name state. -/
def stepTagName (t : TagAcc) (c : Char) : Option (TokState × List Token) :=
  if isHtmlSpace c then some (.beforeAttrName t, [])
  else if c = '/' then some (.selfClosing t, [])
  else if c = '>' then emitTag t false
  else if c.toNat = 0 then none
  else some (.tagName { t with name := t.name ++ [asciiLower c] }, [])

/-- Data state. -/
def stepData (c : Char) : Option (TokState × List Token) :=
  if c = '&' then none
  else if c = '<' then some (.tagOpen, [])
  else if c.toNat = 0 then none
  else some (.data, [.char c])

/-- One character of input in a state: the next state and the tokens emitted,
`none` outside the model. -/
def step (st : TokState) (c : Char) : Option (TokState × List Token) :=
  match st with
  | .data => stepData c
  | .tagOpen =>
    if c = '!' then none
    else if c = '/' then some (.endTagOpen, [])
    else if isAsciiAlpha c then stepTagName { isEnd := false, name := [], attrs := [] } c
    else if c = '?' then none
    else (stepData c).map fun r => (r.1, Token.char '<' :: r.2)
  | .endTagOpen =>
    if isAsciiAlpha c then stepTagName { isEnd := true, name := [], attrs := [] } c
    else if c = '>' then some (.data, [])
    else none
  | .tagName t => stepTagName t c
  | .beforeAttrName t => stepBeforeAttrName t c
  | .attrName t name => stepAttrName t name c
  | .afterAttrName t name =>
    if isHtmlSpace c then some (.afterAttrName t name, [])
    else if c = '/' then some (.selfClosing (addAttr t name []), [])
    else if c = '=' then some (.beforeAttrValue t name, [])
    else if c = '>' then emitTag (addAttr t name []) false
    else stepAttrName (addAttr t name []) [] c
  | .beforeAttrValue t name =>
    if isHtmlSpace c then some (.beforeAttrValue t name, [])
    else if c = '"' then some (.attrValueDQ t name [], [])
    else if c = Char.ofNat 39 then some (.attrValueSQ t name [], [])
    else if c = '>' then emitTag (addAttr t name []) false
    else if c = '&' then none
    else if c.toNat = 0 then none
    else some (.attrValueUnq t name [c], [])
  | .attrValueDQ t name val =>
    if c = '"' then some (.afterAttrValueQ (addAttr t name val), [])
    else if c = '&' then none
    else if c.toNat = 0 then none
    else some (.attrValueDQ t name (val ++ [c]), [])
  | .attrValueSQ t name val =>
    if c = Char.ofNat 39 then some (.afterAttrValueQ (addAttr t name val), [])
    else if c = '&' then none
    else if c.toNat = 0 then none
    else some (.attrValueSQ t name (val ++ [c]), [])
  | .attrValueUnq t name val =>
    if isHtmlSpace c then some (.beforeAttrName (addAttr t name val), [])
    else if c = '&' then none
    else if c = '>' then emitTag (addAttr t name val) false
    else if c.toNat = 0 then none
    else some (.attrValueUnq t name (val ++ [c]), [])
  | .afterAttrValueQ t =>
    if isHtmlSpace c then some (.beforeAttrName t, [])
    else if c = '/' then some (.selfClosing t, [])
    else if c = '>' then emitTag t false
    else stepBeforeAttrName t c
  | .selfClosing t =>
    if c = '>' then emitTag t true
    else stepBeforeAttrName t c

/-- The tokens emitted at the end of the input: a tag left open is dropped. -/
def atEof : TokState → List Token
  | .tagOpen => [.char '<']
  | .endTagOpen => [.char '<', .char '/']
  | _ => []

/-- Feed the characters to the tokenizer: the state reached and the tokens emitted. -/
def feed (st : TokState) : List Char → Option (TokState × List Token)
  | [] => some (st, [])
  | c :: rest =>
    match step st c with
    | none => none
    | some (st1, out1) =>
      match feed st1 rest with
      | none => none
      | some (st2, out2) => some (st2, out1 ++ out2)

/-- The tokens of a fragment of HTML, `none` when it leaves the model. -/
def tokenize (html : String) : Option (List Token) :=
  match feed .data (normalizeNewlines html.data) with
  | none => none
  | some (st, out) => some (out ++ atEof st)

/-- The character tokens of a run of text. -/
def textTokens (s : String) : List Token :=
  s.data.map Token.char

/-- The `href` attribute of every `a` start tag, in order: the links of the
fragment (`none` for an anchor without `href`). -/
def anchorHrefs : List Token → List (Option String)
  | [] => []
  | .startTag name attrs _ :: rest =>
    if name = "a" then attrs.lookup "href" :: anchorHrefs rest else anchorHrefs rest
  | _ :: rest => anchorHrefs rest

/-- An item of a regular expression anchored at both ends: a literal character,
or one or more characters of a class (`[...]+`). -/
inductive RegexItem where
  | lit (c : Char)
  | plus (cls : Char → Bool)

/-- Whether the items match the whole input, by backtracking. -/
def matchItems : List RegexItem → List Char → Bool
  | [], [] => true
  | [], _ :: _ => false
  | _ :: _, [] => false
  | .lit c :: items, d :: cs => c == d && matchItems items cs
  | .plus cls :: items, d :: cs =>
    cls d && (matchItems (.plus cls :: items) cs || matchItems items cs)

/-- The class `[^\s@]`. -/
def notSpaceNorAt (c : Char) : Bool :=
  !(isJsSpace c || c == '@')

/-- Lines 78-81: `/^[^\s@]+@[^\s@]+\.[^\s@]+$/.test(email)`. -/
def validateEmail (email : String) : Bool :=
  matchItems [.plus notSpaceNorAt, .lit '@', .plus notSpaceNorAt, .lit '.', .plus notSpaceNorAt]
    email.data

/-! ## Required fields: the inline border colour

The inline style keeps a colour as a value, and reading `style.borderColor`
gives its serialization (CSSOM): an opaque sRGB colour written in hexadecimal
notation reads back as `rgb(r, g, b)`. -/

/-- The value of a hexadecimal digit. -/
def hexValue (c : Char) : Option Nat :=
  let n := c.toNat
  if 48 ≤ n && n ≤ 57 then some (n - 48)
  else if 97 ≤ n && n ≤ 102 then some (n - 87)
  else if 65 ≤ n && n ≤ 70 then some (n - 55)
  else none

/-- Two hexadecimal digits as a channel value. -/
def hexPair (hi lo : Char) : Option Nat :=
  match hexValue hi, hexValue lo with
  | some h, some l => some (16 * h + l)
  | _, _ => none

/-- The serialization of an opaque sRGB colour. -/
def serializeRgb (r g b : Nat) : String :=
  "rgb(" ++ toString r ++ ", " ++ toString g ++ ", " ++ toString b ++ ")"

/-- What `style.borderColor` reads after `style.borderColor = v`, for the
values in the model: the empty string removes the declaration, `#rgb` and
`#rrggbb` store an opaque colour. Other strings (named colours, functions,
colours with alpha, invalid values) are outside the model: `none`. -/
def serializeAssignedColor (v : String) : Option String :=
  match v.data with
  | [] => some ""
  | ['#', r, g, b] =>
    match hexPair r r, hexPair g g, hexPair b b with
    | some x, some y, some z => some (serializeRgb x y z)
    | _, _, _ => none
  | ['#', r1, r2, g1, g2, b1, b2] =>
    match hexPair r1 r2, hexPair g1 g2, hexPair b1 b2 with
    | some x, some y, some z => some (serializeRgb x y z)
    | _, _, _ => none
  | _ => none

/-- An `input` or `textarea` element: whether it has the `required` attribute,
its value, what `style.borderColor` reads (the empty string without a custom
border colour), and its other inline style properties. -/
structure Field where
  required : Bool
  value : String
  borderColor : String
  otherStyle : List (String × String)
  deriving DecidableEq, Repr

/-- The statement `this.style.borderColor = v`. -/
def setBorderColor (v : String) (f : Field) : Option Field :=
  match serializeAssignedColor v with
  | none => none
  | some shown => some { f with borderColor := shown }

/-- Lines 85-91: the blur listener. -/
def blurHandler (f : Field) : Option Field :=
  if f.required && jsTrim f.value == "" then setBorderColor "#dc3545" f
  else setBorderColor "" f

/-- Lines 93-97: the input listener. -/
def inputHandler (f : Field) : Option Field :=
  if f.borderColor = "rgb(220, 53, 69)" then setBorderColor "" f
  else some f

/-! ## Alerts and timers -/

/-- An element of the document: its identity, whether it has the class
`alert`, and the inline `transition` and `opacity` as last assigned. -/
structure Elem where
  node : Nat
  isAlert : Bool
  transition : String
  opacity : String
  deriving DecidableEq, Repr

/-- A callback given to `setTimeout`: the outer arrow function of lines 67-73
or the inner one of lines 70-72, closed over its alert. -/
inductive Callback where
  | fade (node : Nat)
  | remove (node : Nat)
  deriving DecidableEq, Repr

/-- A pending timer: the time it is due, in milliseconds, and its callback. -/
structure Timer where
  due : Nat
  callback : Callback
  deriving DecidableEq, Repr

/-- The document with its clock and its pending timers, in the order they were set. -/
structure World where
  now : Nat
  elems : List Elem
  timers : List Timer
  deriving DecidableEq, Repr

/-- The call `setTimeout(callback, delay)`. -/
def setTimeout (callback : Callback) (delay : Nat) (w : World) : World :=
  { w with timers := w.timers ++ [{ due := w.now + delay, callback := callback }] }

/-- Run a callback. -/
def runCallback (cb : Callback) (w : World) : World :=
  match cb with
  | .fade n =>
    setTimeout (.remove n) 500
      { w with elems := w.elems.map fun e =>
          if e.node = n then { e with transition := "opacity 0.5s", opacity := "0" } else e }
  | .remove n => { w with elems := w.elems.filter fun e => e.node ≠ n }

/-- Take the timer that is due first out of the list; among timers due at the
same time, the one set first. -/
def popEarliest : List Timer → Option (Timer × List Timer)
  | [] => none
  | tm :: rest =>
    match popEarliest rest with
    | none => some (tm, [])
    | some (tm1, rest1) =>
      if tm.due ≤ tm1.due then some (tm, rest) else some (tm1, tm :: rest1)

/-- The event loop up to time `t`: run the timers due by then, each at its
time, at most `fuel` of them. -/
def runTimers : Nat → Nat → World → World
  | 0, _, w => w
  | fuel + 1, t, w =>
    match popEarliest w.timers with
    | none => w
    | some (tm, rest) =>
      if tm.due ≤ t then
        runTimers fuel t (runCallback tm.callback { w with now := tm.due, timers := rest })
      else w

/-- The world at time `t`: a callback sets at most one timer, and that one sets
none, so twice the number of pending timers is fuel enough. -/
def advanceTo (t : Nat) (w : World) : World :=
  { runTimers (2 * w.timers.length) t w with now := t }

/-- The appearance of an alert once its fade has begun. -/
def faded (e : Elem) : Elem :=
  { e with transition := "opacity 0.5s", opacity := "0" }

/-- How many callbacks a pending timer can still cause to run: a fade runs and
sets a remove, a remove runs and sets nothing. -/
def timerWeight (tm : Timer) : Nat :=
  match tm.callback with
  | .fade _ => 2
  | .remove _ => 1

/-- The callbacks the pending timers can still cause to run. -/
def timersWeight (l : List Timer) : Nat :=
  (l.map timerWeight).sum

/-- An element of the document, in tree order: its identity and its `id` attribute. -/
structure DomElem where
  node : Nat
  id : Option String
  deriving DecidableEq, Repr

/-- The outcome of `document.querySelector(sel)`. -/
inductive QueryResult where
  | syntaxError
  | result (el : Option DomElem)
  | outsideModel
  deriving DecidableEq, Repr

/-- ASCII letters and the underscore start an identifier. -/
def isIdentStart (c : Char) : Bool :=
  isAsciiAlpha c || c = '_'

/-- ASCII letters, digits, the underscore and the hyphen continue an identifier. -/
def isIdentChar (c : Char) : Bool :=
  isIdentStart c || (48 ≤ c.toNat && c.toNat ≤ 57) || c = '-'

/-- Whether the characters start a CSS identifier (CSS Syntax, "would start an
ident sequence"), escapes apart. -/
def startsIdent : List Char → Bool
  | [] => false
  | c :: rest =>
    if c = '-' then
      match rest with
      | [] => false
      | d :: _ => isIdentStart d || d = '-'
    else isIdentStart c

/-- The call `document.querySelector(sel)` in a document in no-quirks mode,
for the selectors in the model: `#` followed by ASCII identifier characters.
When these form an identifier the selector is an ID selector and the result
is the first element with that `id`, or `null`; when they do not (none at
all, a leading digit, a lone hyphen) the selector is invalid and the call
throws a `SyntaxError`. Every other selector is outside the model. -/
def querySelector (doc : List DomElem) (sel : String) : QueryResult :=
  match sel.data with
  | '#' :: name =>
    if name.all isIdentChar then
      if startsIdent name then
        .result (doc.find? fun el => el.id = some (String.mk name))
      else .syntaxError
    else .outsideModel
  | _ => .outsideModel

/-- The argument of `scrollIntoView`. -/
structure ScrollOptions where
  behavior : String
  block : String
  deriving DecidableEq, Repr

/-- How a click on an anchor ends. -/
structure ClickResult where
  defaultPrevented : Bool
  scrolled : Option (DomElem × ScrollOptions)
  thrown : Option JsError
  deriving DecidableEq, Repr

/-- Lines 52-61: the click listener of an anchor whose `href` attribute is
`href`; `none` when the selector is outside the model. -/
def anchorClick (doc : List DomElem) (href : String) : Option ClickResult :=
  match querySelector doc href with
  | .outsideModel => none
  | .syntaxError =>
    some { defaultPrevented := true, scrolled := none, thrown := some .syntaxError }
  | .result none => some { defaultPrevented := true, scrolled := none, thrown := none }
  | .result (some target) =>
    some { defaultPrevented := true
           scrolled := some (target, { behavior := "smooth", block := "start" })
           thrown := none }

/-! ## Environments for concrete runs -/

/-- A server that answers every request with the given status and body, and a
`response.json()` that knows one body: it resolves with `data` on `known` and
rejects on every other body. -/
def mockEnv (status : Nat) (body known : String) (data : JsValue) : Env :=
  { fetch := fun _ => some { status := status, body := body }
    parseJson := fun b => if b = known then some data else none }

/-- A network that rejects every request. -/
def offlineEnv : Env :=
  { fetch := fun _ => none
    parseJson := fun _ => none }

theorem trimChars_eq_nil_of_all_space (cs : List Char) (h : ∀ c ∈ cs, isJsSpace c = true) :
    trimChars cs = [] := by
  have hdrop : cs.dropWhile isJsSpace = [] := by
    rw [List.dropWhile_eq_nil_iff]
    exact h
  simp [trimChars, dropTrailing, hdrop]

theorem jsTrim_eq_empty_of_all_space (s : String) (h : ∀ c ∈ s.data, isJsSpace c = true) :
    jsTrim s = "" := by
  simp [jsTrim, trimChars_eq_nil_of_all_space s.data h]

/-! ### The check form -/

theorem submitHandler_of_nonempty (env : Env) (value old : String) (h : jsTrim value ≠ "") :
    submitHandler env { checkEmail := some value, checkResult := some old } =
      { page :=
          { checkEmail := some value
            checkResult := some (match tryBlock env (checkRequest (jsTrim value)) with
              | .ok html => html
              | .error _ => retryHtml) }
        log := [.preventDefault, .setResult checkingHtml, .fetch (checkRequest (jsTrim value)),
          .setResult (match tryBlock env (checkRequest (jsTrim value)) with
              | .ok html => html
              | .error _ => retryHtml)]
        thrown := none } := by
  simp [submitHandler, assignResult, h]

/-- C1: when the value of `checkEmail` is empty or consists of whitespace only,
the submit handler calls `fetch` never, does not throw, and leaves the result
region holding the "please enter an email" paragraph (a single `p` element),
whatever the region held before. -/
theorem C1_blank_email_no_request (env : Env) (value old : String)
    (hblank : ∀ c ∈ value.data, isJsSpace c = true) :
    (submitHandler env { checkEmail := some value, checkResult := some old }).page.checkResult
        = some emptyEmailHtml ∧
    (∀ req, Effect.fetch req ∉
      (submitHandler env { checkEmail := some value, checkResult := some old }).log) ∧
    (submitHandler env { checkEmail := some value, checkResult := some old }).thrown = none ∧
    tokenize emptyEmailHtml =
      some ([.startTag "p" [("class", "error")] false] ++
        textTokens "Пожалуйста, введите email" ++ [.endTag "p"]) := by
  have htrim := jsTrim_eq_empty_of_all_space value hblank
  refine ⟨?_, ?_, ?_, by decide⟩ <;> simp [submitHandler, assignResult, htrim]

theorem C1_blank_email_no_request_witness :
    (∀ c ∈ " \t\n".data, isJsSpace c = true) ∧
    (submitHandler offlineEnv { checkEmail := some " \t\n", checkResult := some "<b>old</b>" }
      ).page.checkResult = some emptyEmailHtml :=
  ⟨by decide, (C1_blank_email_no_request offlineEnv " \t\n" "<b>old</b>" (by decide)).1⟩

/-! ### The tokenizer on the template literal of the found branch -/

/-- C3: for a non-empty trimmed email and a parsed response whose `exists` is
false, the handler ends without throwing and the result region holds exactly
the "not found, please register" paragraph, whatever it held before; that
HTML is a single `p` element and has no link. -/
theorem C3_not_found_replaces_region (env : Env) (value old : String) (r : Response)
    (d : JsValue) (hvalue : jsTrim value ≠ "")
    (hfetch : env.fetch (checkRequest (jsTrim value)) = some r)
    (hparse : env.parseJson r.body = some d)
    (hexists : getMember d "exists" = .ok (.bool false)) :
    (submitHandler env { checkEmail := some value, checkResult := some old }).page.checkResult
        = some notFoundHtml ∧
    (submitHandler env { checkEmail := some value, checkResult := some old }).thrown = none ∧
    tokenize notFoundHtml =
      some ([.startTag "p" [("class", "error")] false] ++
        textTokens "Участник с таким email не найден. Зарегистрируйтесь, пожалуйста." ++
        [.endTag "p"]) ∧
    (tokenize notFoundHtml).map anchorHrefs = some [] := by
  have htry : tryBlock env (checkRequest (jsTrim value)) = .ok notFoundHtml := by
    simp [tryBlock, hfetch, hparse, hexists, truthy]
  rw [submitHandler_of_nonempty env value old hvalue, htry]
  refine ⟨rfl, rfl, by decide, by decide⟩

theorem C3_not_found_replaces_region_witness :
    (submitHandler
      (mockEnv 200 "\x7b\"exists\": false\x7d" "\x7b\"exists\": false\x7d"
        (.obj [("exists", .bool false)]))
      { checkEmail := some "a@example.com", checkResult := some "<a href=\"/old\">old</a>" }
      ).page.checkResult = some notFoundHtml :=
  (C3_not_found_replaces_region
    (mockEnv 200 "\x7b\"exists\": false\x7d" "\x7b\"exists\": false\x7d"
      (.obj [("exists", .bool false)]))
    "a@example.com" "<a href=\"/old\">old</a>"
    { status := 200, body := "\x7b\"exists\": false\x7d" } (.obj [("exists", .bool false)])
    (by decide) rfl rfl rfl).1

/-- C4: for a non-empty trimmed email, when the request is rejected or the body
of the response is not JSON, the handler ends without throwing and the result
region holds exactly the "retry later" paragraph, the same in both cases. -/
theorem C4_failure_shows_retry (env : Env) (value old : String) (hvalue : jsTrim value ≠ "")
    (hfail : env.fetch (checkRequest (jsTrim value)) = none ∨
      ∃ r, env.fetch (checkRequest (jsTrim value)) = some r ∧ env.parseJson r.body = none) :
    (submitHandler env { checkEmail := some value, checkResult := some old }).page.checkResult
        = some retryHtml ∧
    (submitHandler env { checkEmail := some value, checkResult := some old }).thrown = none ∧
    tokenize retryHtml =
      some ([.startTag "p" [("class", "error")] false] ++
        textTokens "Ошибка при проверке. Попробуйте позже." ++ [.endTag "p"]) := by
  have htry : ∃ err, tryBlock env (checkRequest (jsTrim value)) = .error err := by
    rcases hfail with h | ⟨r, h, hp⟩
    · exact ⟨.networkError, by simp [tryBlock, h]⟩
    · exact ⟨.syntaxError, by simp [tryBlock, h, hp]⟩
  obtain ⟨err, htry⟩ := htry
  rw [submitHandler_of_nonempty env value old hvalue, htry]
  refine ⟨rfl, rfl, by decide⟩

theorem C4_failure_shows_retry_witness :
    (submitHandler offlineEnv
        { checkEmail := some "a@example.com", checkResult := some "" }).page.checkResult
      = some retryHtml ∧
    (submitHandler (mockEnv 200 "<html>" "" .null)
        { checkEmail := some "a@example.com", checkResult := some "" }).page.checkResult
      = some retryHtml :=
  ⟨(C4_failure_shows_retry offlineEnv "a@example.com" "" (by decide) (Or.inl rfl)).1,
   (C4_failure_shows_retry (mockEnv 200 "<html>" "" .null) "a@example.com" "" (by decide)
      (Or.inr ⟨{ status := 200, body := "<html>" }, rfl, rfl⟩)).1⟩

/-- C5: for every value of `checkEmail` whose trimmed form `t` is not empty,
whatever `validateEmail t` says, the handler first sets the result region to
the "checking" message and then calls `fetch` exactly once: `POST` to
`/participant/check`, header `Content-Type: application/json`, and the body
`JSON.stringify` of the object whose `email` is `t`. -/
theorem C5_one_post_request (env : Env) (value old : String) (hvalue : jsTrim value ≠ "") :
    ∃ html,
      (submitHandler env { checkEmail := some value, checkResult := some old }).log =
        [ .preventDefault,
          .setResult checkingHtml,
          .fetch
            { url := "/participant/check"
              method := "POST"
              headers := [("Content-Type", "application/json")]
              body := "\x7b" ++ jsonQuote "email" ++ ":" ++ jsonQuote (jsTrim value) ++ "\x7d" },
          .setResult html ] := by
  rw [submitHandler_of_nonempty env value old hvalue]
  exact ⟨_, rfl⟩

theorem C5_one_post_request_witness :
    validateEmail (jsTrim "  not an email ") = false ∧
    ∃ html,
      (submitHandler offlineEnv
        { checkEmail := some "  not an email ", checkResult := some "" }).log =
        [ .preventDefault,
          .setResult checkingHtml,
          .fetch
            { url := "/participant/check"
              method := "POST"
              headers := [("Content-Type", "application/json")]
              body := "\x7b" ++ jsonQuote "email" ++ ":" ++
                jsonQuote (jsTrim "  not an email ") ++ "\x7d" },
          .setResult html ] :=
  ⟨by decide, C5_one_post_request offlineEnv "  not an email " "" (by decide)⟩

/-- C6: the HTTP status plays no part. Two runs of the handler on the same
page whose responses may differ in status (and in anything else) and whose
parsed bodies agree on the members `exists` and `url`, as they do when the
two bodies are the same, end in the same way: same result region, same
actions, same completion. -/
theorem C6_status_is_ignored (parseJson : String → Option JsValue)
    (fetch1 fetch2 : Request → Option Response) (pg : Page) (r1 r2 : Response)
    (d1 d2 : JsValue)
    (hfetch1 : ∀ value, pg.checkEmail = some value →
      fetch1 (checkRequest (jsTrim value)) = some r1)
    (hfetch2 : ∀ value, pg.checkEmail = some value →
      fetch2 (checkRequest (jsTrim value)) = some r2)
    (hparse1 : parseJson r1.body = some d1) (hparse2 : parseJson r2.body = some d2)
    (hexists : getMember d1 "exists" = getMember d2 "exists")
    (hurl : getMember d1 "url" = getMember d2 "url") :
    submitHandler { fetch := fetch1, parseJson := parseJson } pg =
      submitHandler { fetch := fetch2, parseJson := parseJson } pg := by
  cases hemail : pg.checkEmail with
  | none => simp [submitHandler, hemail]
  | some value =>
    have htry : tryBlock { fetch := fetch1, parseJson := parseJson } (checkRequest (jsTrim value)) =
        tryBlock { fetch := fetch2, parseJson := parseJson } (checkRequest (jsTrim value)) := by
      simp [tryBlock, hfetch1 value hemail, hfetch2 value hemail, hparse1, hparse2, hexists, hurl]
    simp [submitHandler, hemail, htry]

theorem C6_status_is_ignored_witness :
    submitHandler (mockEnv 200 "\x7b\"exists\": false\x7d" "\x7b\"exists\": false\x7d"
        (.obj [("exists", .bool false)]))
      { checkEmail := some "a@example.com", checkResult := some "" } =
    submitHandler (mockEnv 500 "\x7b\"exists\": false\x7d" "\x7b\"exists\": false\x7d"
        (.obj [("exists", .bool false)]))
      { checkEmail := some "a@example.com", checkResult := some "" } :=
  C6_status_is_ignored
    (fun b => if b = "\x7b\"exists\": false\x7d" then some (.obj [("exists", .bool false)])
      else none)
    (fun _ => some { status := 200, body := "\x7b\"exists\": false\x7d" })
    (fun _ => some { status := 500, body := "\x7b\"exists\": false\x7d" })
    { checkEmail := some "a@example.com", checkResult := some "" }
    { status := 200, body := "\x7b\"exists\": false\x7d" }
    { status := 500, body := "\x7b\"exists\": false\x7d" }
    (.obj [("exists", .bool false)]) (.obj [("exists", .bool false)])
    (fun _ _ => rfl) (fun _ _ => rfl) rfl rfl rfl rfl

/-! ### Required fields -/

theorem setBorderColor_error (f : Field) :
    setBorderColor "#dc3545" f = some { f with borderColor := "rgb(220, 53, 69)" } := by
  have h : serializeAssignedColor "#dc3545" = some "rgb(220, 53, 69)" := by decide
  simp [setBorderColor, h]

theorem setBorderColor_empty (f : Field) :
    setBorderColor "" f = some { f with borderColor := "" } := by
  have h : serializeAssignedColor "" = some "" := by decide
  simp [setBorderColor, h]

/-- C8: a required field blurred while its trimmed value is empty reads the
error colour `rgb(220, 53, 69)`, the colour the input listener tests for; the
next input event, whatever the new value, leaves the border colour empty. -/
theorem C8_input_clears_error_colour (f : Field) (newValue : String)
    (hreq : f.required = true) (hblank : jsTrim f.value = "") :
    ∃ g k, blurHandler f = some g ∧ g.borderColor = "rgb(220, 53, 69)" ∧
      inputHandler { g with value := newValue } = some k ∧
      k.borderColor = "" ∧ k.value = newValue := by
  refine ⟨{ f with borderColor := "rgb(220, 53, 69)" },
    { f with borderColor := "", value := newValue }, ?_, rfl, ?_, rfl, rfl⟩
  · simp [blurHandler, hreq, hblank, setBorderColor_error]
  · simp [inputHandler, setBorderColor_empty]

theorem C8_input_clears_error_colour_witness :
    ∃ g k,
      blurHandler { required := true, value := "  ", borderColor := "", otherStyle := [] }
        = some g ∧
      g.borderColor = "rgb(220, 53, 69)" ∧
      inputHandler { g with value := "  a" } = some k ∧
      k.borderColor = "" ∧ k.value = "  a" :=
  C8_input_clears_error_colour
    { required := true, value := "  ", borderColor := "", otherStyle := [] } "  a"
    rfl (by decide)

/-! ### Anchor links -/

/-- C10, the failing input: a click on `<a href="#">` prevents the default
action and then throws a `SyntaxError` out of `querySelector`, in every
document; nothing is scrolled. -/
theorem C10_bare_hash_throws (doc : List DomElem) :
    anchorClick doc "#" =
      some { defaultPrevented := true, scrolled := none, thrown := some .syntaxError } := by
  rfl

theorem anchorClick_of_ident (doc : List DomElem) (name : List Char)
    (hchars : name.all isIdentChar = true) (hstart : startsIdent name = true) :
    anchorClick doc (String.mk ('#' :: name)) =
      some { defaultPrevented := true
             scrolled := (doc.find? fun el => el.id = some (String.mk name)).map
               fun target => (target, { behavior := "smooth", block := "start" })
             thrown := none } := by
  simp only [anchorClick, querySelector, hchars, hstart, if_true]
  cases doc.find? fun el => el.id = some (String.mk name) <;> rfl

/-! ### Alerts and timers -/

theorem popEarliest_eq_none (l : List Timer) (h : popEarliest l = none) : l = [] := by
  cases l with
  | nil => rfl
  | cons a l =>
    rw [popEarliest] at h
    rcases hq : popEarliest l with _ | ⟨tm2, rest2⟩
    · rw [hq] at h
      simp at h
    · rw [hq] at h
      simp only at h
      split at h <;> simp at h

theorem popEarliest_weight (l : List Timer) (tm : Timer) (rest : List Timer)
    (h : popEarliest l = some (tm, rest)) :
    timersWeight l = timerWeight tm + timersWeight rest := by
  induction l generalizing tm rest with
  | nil => simp [popEarliest] at h
  | cons a l ih =>
    rw [popEarliest] at h
    rcases hp : popEarliest l with _ | ⟨tm1, rest1⟩
    · rw [hp] at h
      simp only [Option.some.injEq, Prod.mk.injEq] at h
      rw [← h.1, ← h.2, popEarliest_eq_none l hp]
      simp [timersWeight]
    · rw [hp] at h
      simp only at h
      have ih1 := ih tm1 rest1 hp
      split at h
      · simp only [Option.some.injEq, Prod.mk.injEq] at h
        rw [← h.1, ← h.2]
        simp [timersWeight]
      · simp only [Option.some.injEq, Prod.mk.injEq] at h
        rw [← h.1, ← h.2]
        simp only [timersWeight, List.map_cons, List.sum_cons] at ih1 ⊢
        omega

theorem popEarliest_le (l : List Timer) (tm : Timer) (rest : List Timer)
    (h : popEarliest l = some (tm, rest)) : ∀ x ∈ l, tm.due ≤ x.due := by
  induction l generalizing tm rest with
  | nil => simp [popEarliest] at h
  | cons a l ih =>
    rw [popEarliest] at h
    rcases hp : popEarliest l with _ | ⟨tm1, rest1⟩
    · rw [hp] at h
      simp only [Option.some.injEq, Prod.mk.injEq] at h
      rw [← h.1, popEarliest_eq_none l hp]
      simp
    · rw [hp] at h
      simp only at h
      have ih1 := ih tm1 rest1 hp
      intro x hx
      split at h
      · rename_i hle
        simp only [Option.some.injEq, Prod.mk.injEq] at h
        rw [← h.1]
        rcases List.mem_cons.mp hx with rfl | hx
        · exact Nat.le_refl _
        · exact Nat.le_trans hle (ih1 x hx)
      · rename_i hle
        simp only [Option.some.injEq, Prod.mk.injEq] at h
        rw [← h.1]
        rcases List.mem_cons.mp hx with rfl | hx
        · omega
        · exact ih1 x hx

theorem timerWeight_pos (tm : Timer) : 1 ≤ timerWeight tm := by
  unfold timerWeight
  split <;> decide

theorem timersWeight_le (l : List Timer) : timersWeight l ≤ 2 * l.length := by
  induction l with
  | nil => simp [timersWeight]
  | cons a l ih =>
    have ha : timerWeight a ≤ 2 := by
      unfold timerWeight
      split <;> decide
    simp only [timersWeight, List.map_cons, List.sum_cons, List.length_cons] at ih ⊢
    omega

theorem runTimers_settled (fuel t : Nat) (w : World) (hfuel : timersWeight w.timers ≤ fuel) :
    ∀ x ∈ (runTimers fuel t w).timers, t < x.due := by
  induction fuel generalizing w with
  | zero =>
    have hnil : w.timers = [] := by
      cases hw : w.timers with
      | nil => rfl
      | cons a l =>
        rw [hw] at hfuel
        have := timerWeight_pos a
        simp only [timersWeight, List.map_cons, List.sum_cons] at hfuel
        omega
    simp [runTimers, hnil]
  | succ fuel ih =>
    rw [runTimers]
    rcases hp : popEarliest w.timers with _ | ⟨tm, rest⟩
    · simp [popEarliest_eq_none _ hp]
    · simp only
      have hw := popEarliest_weight _ _ _ hp
      split
      · apply ih
        cases hcb : tm.callback with
        | fade n =>
          have h2 : timerWeight tm = 2 := by simp [timerWeight, hcb]
          have hnew : timersWeight (rest ++ [{ due := tm.due + 500, callback := .remove n }]) =
              timersWeight rest + 1 := by
            simp [timersWeight, timerWeight]
          simp only [runCallback, setTimeout]
          rw [hnew]
          omega
        | remove n =>
          have h1 : timerWeight tm = 1 := by simp [timerWeight, hcb]
          simp only [runCallback]
          have := timerWeight_pos tm
          omega
      · rename_i hlt
        intro x hx
        have := popEarliest_le _ _ _ hp x hx
        omega

/-- The event loop leaves no timer behind that is due: the fuel of `advanceTo` is enough. -/
theorem advanceTo_settled (t : Nat) (w : World) : ∀ x ∈ (advanceTo t w).timers, t < x.due := by
  intro x hx
  exact runTimers_settled _ t w (timersWeight_le _) x hx

theorem faded_node (e : Elem) : (faded e).node = e.node := rfl

theorem faded_faded (e : Elem) : faded (faded e) = faded e := rfl

theorem validateEmail_examples :
    validateEmail "a@example.com" = true ∧ validateEmail "a@b.c.d" = true ∧
    validateEmail "abc" = false ∧ validateEmail "a@b" = false ∧
    validateEmail "a@b.c d" = false ∧ validateEmail "a@@b.c" = false := by
  decide

theorem anchorClick_section1 :
    anchorClick [{ node := 0, id := none }, { node := 1, id := some "section1" }] "#section1" =
      some { defaultPrevented := true
             scrolled := some ({ node := 1, id := some "section1" },
               { behavior := "smooth", block := "start" })
             thrown := none } ∧
    anchorClick [{ node := 0, id := none }, { node := 1, id := some "section1" }] "#other" =
      some { defaultPrevented := true, scrolled := none, thrown := none } := by
  decide

theorem checkRequest_body_example :
    (checkRequest "a@example.com").body = "\x7b\"email\":\"a@example.com\"\x7d" := by
  decide

end SecretSanta
